import Mathlib

/-!
Shallow embedding of the IIIF manifest generator
(`scripts/10_generate_manifests.py` of the IIIFy-dataset repository),
together with theorems settling the specification claims.

Filesystems are modelled explicitly:
* image-file existence is a predicate `ex : String → Bool` on full paths;
* readable image dimensions are `dims : String → Option (Nat × Nat)`
  (`none` models any read/decode failure of `PIL.Image.open`);
* the output directory is an association list `FS = List (String × Manifest)`
  from full file paths to (parsed) written manifest contents, where
  `fs_write` prepends and `List.lookup` reads the most recent write.
-/

set_option autoImplicit false

namespace IIIFy

/-- The fixed `SAINT_CATEGORIES` list from the script header. -/
def SAINT_CATEGORIES : List String :=
  ["11F(MARY)",
   "11H(ANTONY ABBOT)",
   "11H(ANTONY OF PADUA)",
   "11H(AUGUSTINE)",
   "11H(DOMINIC)",
   "11H(FRANCIS)",
   "11H(JEROME)",
   "11H(JOHN THE BAPTIST)",
   "11H(JOHN)",
   "11H(JOSEPH)",
   "11H(PAUL)",
   "11H(PETER)",
   "11H(SEBASTIAN)",
   "11H(STEPHEN)",
   "11HH(BARBARA)",
   "11HH(CATHERINE)",
   "11HH(MARY MAGDALENE)"]

/-- `get_image_dimensions`: returns the image's `(width, height)`, or the
fixed default `(1000, 1000)` when the file cannot be read/decoded
(the Python `try/except` around `Image.open`). -/
def get_image_dimensions (dims : String → Option (Nat × Nat)) (image_path : String) :
    Nat × Nat :=
  match dims image_path with
  | some wh => wh
  | none => (1000, 1000)

/-- The fixed ordered extension-probe list of `find_image_file`. -/
def extensions : List String :=
  [".jpg", ".jpeg", ".png", ".tif", ".tiff", ".JPG", ".JPEG", ".PNG", ".TIF", ".TIFF"]

/-- The `for ext in extensions` probe loop of `find_image_file`:
returns the first `images_dir/{item_id}{ext}` that exists. -/
def probe_extensions (ex : String → Bool) (images_dir item_id : String) :
    List String → Option String
  | [] => none
  | e :: rest =>
    let image_file := images_dir ++ "/" ++ (item_id ++ e)
    if ex image_file then some image_file else probe_extensions ex images_dir item_id rest

/-- `find_image_file`: find the actual image file for an item ID by probing
the fixed extension list in order. -/
def find_image_file (item_id images_dir : String) (ex : String → Bool) : Option String :=
  probe_extensions ex images_dir item_id extensions

/-- One character-substitution pass, the model of Python's
`str.replace(old, new)` for a single-character `old` (`new` may be empty). -/
def replace_char (a : Char) (b : List Char) : List Char → List Char
  | [] => []
  | c :: cs => (if c = a then b else [c]) ++ replace_char a b cs

/-- `sanitize_filename`: `name.replace('(', '_').replace(')', '').replace(' ', '_')`. -/
def sanitize_filename (name : String) : String :=
  ⟨replace_char ' ' ['_'] (replace_char ')' [] (replace_char '(' ['_'] name.data))⟩

/-- `Path(p).name`: the final path component (text after the last `/`). -/
def path_name (p : String) : String :=
  ⟨p.data.foldl (fun acc c => if c = '/' then [] else acc ++ [c]) []⟩

/-- The canvas dictionary built by `create_canvas`, flattened to its
payload fields.  `label` models `{"en": [item_id]}`; `bodyId`, `serviceId`
and `target` are the identifier strings nested in the annotation. -/
structure Canvas where
  id : String
  type : String
  label : String
  height : Nat
  width : Nat
  pageId : String
  annotationId : String
  bodyId : String
  bodyFormat : String
  serviceId : String
  serviceProfile : String
  target : String
  deriving DecidableEq, Repr

/-- `create_canvas`: builds the Canvas / AnnotationPage / Annotation /
ImageService fragment with its interpolated identifier strings. -/
def create_canvas (item_id image_filename base_url : String)
    (width height canvas_index : Nat) (manifest_id : String) : Canvas :=
  let image_service_url := base_url ++ "/iiif/3/" ++ image_filename
  let coll := base_url ++ "/collections/" ++ manifest_id ++ "/"
  { id := coll ++ ("canvas/" ++ toString canvas_index)
    type := "Canvas"
    label := item_id
    height := height
    width := width
    pageId := coll ++ ("page/" ++ toString canvas_index)
    annotationId := coll ++ ("annotation/" ++ toString canvas_index)
    bodyId := image_service_url ++ "/full/max/0/default.jpg"
    bodyFormat := "image/jpeg"
    serviceId := image_service_url
    serviceProfile := "level2"
    target := coll ++ ("canvas/" ++ toString canvas_index) }

/-- The manifest document, flattened: `label`/`summary` model the
single-locale `{"en": [...]}` wrappers. -/
structure Manifest where
  context : String
  id : String
  type : String
  label : String
  summary : String
  items : List Canvas
  deriving DecidableEq, Repr

/-- The per-item loop of `create_multi_image_manifest`: walks `image_ids`
carrying the next canvas index, returning the canvas list and the skip
count.  An unresolved item adds no canvas and does not advance the index. -/
def add_canvases (ex : String → Bool) (dims : String → Option (Nat × Nat))
    (images_dir base_url manifest_id : String) :
    List String → Nat → List Canvas × Nat
  | [], _ => ([], 0)
  | item_id :: rest, canvas_index =>
    match find_image_file item_id images_dir ex with
    | none =>
      let r := add_canvases ex dims images_dir base_url manifest_id rest canvas_index
      (r.1, r.2 + 1)
    | some image_file =>
      let wh := get_image_dimensions dims image_file
      let canvas := create_canvas item_id (path_name image_file) base_url
        wh.1 wh.2 canvas_index manifest_id
      let r := add_canvases ex dims images_dir base_url manifest_id rest (canvas_index + 1)
      (canvas :: r.1, r.2)

/-- The output-directory state: full path ↦ written manifest content. -/
abbrev FS : Type := List (String × Manifest)

/-- `json.dump(manifest, f)` to `output_path`: an unconditional write. -/
def fs_write (fs : FS) (output_path : String) (m : Manifest) : FS :=
  (output_path, m) :: fs

/-- Read a file of the output directory (most recent write wins). -/
def fs_read (fs : FS) (p : String) : Option Manifest :=
  List.lookup p fs

/-- `create_multi_image_manifest`: builds the manifest document over
`image_ids` (canvas indices starting at 1), then unconditionally saves it
to `output_path`.  Returns the manifest, the skip count and the new
output-directory state. -/
def create_multi_image_manifest (ex : String → Bool) (dims : String → Option (Nat × Nat))
    (manifest_id label description : String) (image_ids : List String)
    (images_dir base_url output_path : String) (fs : FS) :
    Manifest × Nat × FS :=
  let r := add_canvases ex dims images_dir base_url manifest_id image_ids 1
  let manifest : Manifest :=
    { context := "http://iiif.io/api/presentation/3/context.json"
      id := base_url ++ "/collections/" ++ manifest_id ++ ".json"
      type := "Manifest"
      label := label
      summary := description
      items := r.1 }
  (manifest, r.2, fs_write fs output_path manifest)

/-- One CSV row as seen through `csv.DictReader`: the mandatory `item`
cell, the `set` cell (`none` models a missing value on the row), and the
remaining named cells (the saint-category columns). -/
structure Row where
  item : String
  set : Option String
  cats : List (String × String)
  deriving DecidableEq, Repr

/-- `row.get(saint, '0')`. -/
def row_get (cats : List (String × String)) (k : String) : String :=
  match List.lookup k cats with
  | some v => v
  | none => "0"

/-- The three accumulators of `load_csv_data`: the `set_data` dict
(fixed keys `train`/`test`/`val`), the `saint_data` dict (fixed keys
`SAINT_CATEGORIES`, kept as an association list), and `all_items`. -/
structure CsvData where
  set_train : List String
  set_test : List String
  set_val : List String
  saint_data : List (String × List String)
  all_items : List String
  deriving DecidableEq, Repr

/-- The body of the `for row in reader` loop of `load_csv_data`. -/
def load_csv_row (r : Row) (d : CsvData) : CsvData :=
  let d := { d with all_items := d.all_items ++ [r.item] }
  let d :=
    if r.set = some "train" then { d with set_train := d.set_train ++ [r.item] }
    else if r.set = some "test" then { d with set_test := d.set_test ++ [r.item] }
    else if r.set = some "val" then { d with set_val := d.set_val ++ [r.item] }
    else d
  { d with saint_data := d.saint_data.map (fun p =>
      if row_get r.cats p.1 = "1" then (p.1, p.2 ++ [r.item]) else p) }

/-- `load_csv_data`: folds the row loop over the file's rows starting from
empty buckets. -/
def load_csv_data (rows : List Row) : CsvData :=
  rows.foldl (fun d r => load_csv_row r d)
    { set_train := []
      set_test := []
      set_val := []
      saint_data := SAINT_CATEGORIES.map (fun s => (s, []))
      all_items := [] }

/-- `saint_data[saint]` on the association-list model. -/
def saint_lookup (saint_data : List (String × List String)) (saint : String) :
    List String :=
  match List.lookup saint saint_data with
  | some l => l
  | none => []

/-- Does the path match the `*.json` glob pattern? -/
def matches_json_glob (p : String) : Bool :=
  List.isSuffixOf ".json".data p.data

/-- The driver's CLI options (paths already resolved; `csv`/`images`
existence pre-checks modelled as passed). -/
structure GenArgs where
  base_url : String
  images_dir : String
  output_dir : String
  sample_size : Nat
  generate_splits : Bool
  generate_saints : Bool
  generate_all : Bool
  force : Bool
  deriving DecidableEq, Repr

/-- The `generate_splits` block: one manifest per non-empty split bucket,
written with no per-file existence check. -/
def gen_splits (ex : String → Bool) (dims : String → Option (Nat × Nat))
    (args : GenArgs) (d : CsvData) (fs : FS) : FS :=
  let fs :=
    if d.set_train = [] then fs
    else (create_multi_image_manifest ex dims "train" "Train Set"
      "Training set images from the ArtDL dataset" d.set_train
      args.images_dir args.base_url (args.output_dir ++ "/train.json") fs).2.2
  let fs :=
    if d.set_test = [] then fs
    else (create_multi_image_manifest ex dims "test" "Test Set"
      "Test set images from the ArtDL dataset" d.set_test
      args.images_dir args.base_url (args.output_dir ++ "/test.json") fs).2.2
  if d.set_val = [] then fs
  else (create_multi_image_manifest ex dims "val" "Val Set"
    "Validation set images from the ArtDL dataset" d.set_val
    args.images_dir args.base_url (args.output_dir ++ "/val.json") fs).2.2

/-- The `generate_saints` block: one manifest per saint category with a
non-empty bucket, filename derived by `sanitize_filename`, written with no
per-file existence check. -/
def gen_saints (ex : String → Bool) (dims : String → Option (Nat × Nat))
    (args : GenArgs) (d : CsvData) (fs : FS) : FS :=
  SAINT_CATEGORIES.foldl
    (fun fs saint =>
      let image_ids := saint_lookup d.saint_data saint
      if image_ids = [] then fs
      else (create_multi_image_manifest ex dims (sanitize_filename saint) saint
        ("Images depicting " ++ saint ++ " from the ArtDL dataset") image_ids
        args.images_dir args.base_url
        (args.output_dir ++ "/" ++ sanitize_filename saint ++ ".json") fs).2.2)
    fs

/-- The sample block: skipped when `sample.json` already exists and
`--force` is not set; otherwise builds the `sample` manifest from the
first `sample_size` entries of `all_items`. -/
def gen_sample (ex : String → Bool) (dims : String → Option (Nat × Nat))
    (args : GenArgs) (d : CsvData) (fs : FS) : FS :=
  let sample_path := args.output_dir ++ "/sample.json"
  if (fs_read fs sample_path).isSome && !args.force then fs
  else
    let sample_items := d.all_items.take args.sample_size
    (create_multi_image_manifest ex dims "sample"
      ("Sample Collection (" ++ toString args.sample_size ++ " images)")
      ("Sample collection of " ++ toString args.sample_size ++ " images from the ArtDL dataset")
      sample_items args.images_dir args.base_url sample_path fs).2.2

/-- `generate_manifests` (the driver, after its path/existence
pre-checks): the all-or-nothing output-directory check, then the three
generation blocks.  `outDirExists` models `output_path.exists()`; `fs0`
models the output directory's current contents, so `glob('*.json')` is
non-empty iff some listed path ends in `.json`. -/
def generate_manifests (ex : String → Bool) (dims : String → Option (Nat × Nat))
    (args : GenArgs) (rows : List Row) (outDirExists : Bool) (fs0 : FS) : FS :=
  let gsplits := args.generate_splits || args.generate_all
  let gsaints := args.generate_saints || args.generate_all
  if outDirExists && !args.force && fs0.any (fun kv => matches_json_glob kv.1) then fs0
  else
    let d := load_csv_data rows
    let fs1 := if gsplits then gen_splits ex dims args d fs0 else fs0
    let fs2 := if gsaints then gen_saints ex dims args d fs1 else fs1
    if 0 < args.sample_size then gen_sample ex dims args d fs2 else fs2

/-! ## Helper definitions and lemmas -/

/-- Bool-valued string prefix test, via the underlying character lists. -/
def strIsPrefixOf (p s : String) : Bool :=
  List.isPrefixOf p.data s.data

theorem strIsPrefixOf_append (p t : String) : strIsPrefixOf p (p ++ t) = true := by
  simp [strIsPrefixOf, String.data_append, List.isPrefixOf_iff_prefix]

theorem probe_extensions_eq_find (ex : String → Bool) (images_dir item_id : String)
    (l : List String) :
    probe_extensions ex images_dir item_id l =
      (l.find? (fun e => ex (images_dir ++ "/" ++ (item_id ++ e)))).map
        (fun e => images_dir ++ "/" ++ (item_id ++ e)) := by
  induction l with
  | nil => rfl
  | cons e rest ih =>
    simp only [probe_extensions, List.find?]
    by_cases hx : ex (images_dir ++ "/" ++ (item_id ++ e)) <;> simp [hx, ih]

/-- The single-pass character rule that the three `replace` passes of
`sanitize_filename` amount to. -/
def sanitize_char (c : Char) : Option Char :=
  if c = '(' then some '_'
  else if c = ')' then none
  else if c = ' ' then some '_'
  else some c

theorem replace_char_append (a : Char) (b : List Char) (l1 l2 : List Char) :
    replace_char a b (l1 ++ l2) = replace_char a b l1 ++ replace_char a b l2 := by
  induction l1 with
  | nil => rfl
  | cons c cs ih => simp [replace_char, ih]

theorem sanitize_one_char (c : Char) :
    replace_char ' ' ['_'] (replace_char ')' [] (replace_char '(' ['_'] [c])) =
      (sanitize_char c).toList := by
  by_cases h1 : c = '('
  · subst h1; rfl
  · by_cases h2 : c = ')'
    · subst h2; rfl
    · by_cases h3 : c = ' '
      · subst h3; rfl
      · simp [replace_char, sanitize_char, h1, h2, h3]

theorem sanitize_chars_eq_filterMap (l : List Char) :
    replace_char ' ' ['_'] (replace_char ')' [] (replace_char '(' ['_'] l)) =
      l.filterMap sanitize_char := by
  induction l with
  | nil => rfl
  | cons c cs ih =>
    rw [show (c :: cs) = [c] ++ cs from rfl, replace_char_append, replace_char_append,
      replace_char_append, sanitize_one_char, ih, List.filterMap_append]
    cases h : sanitize_char c <;> simp [h]

/-! ## Claims -/

/-- C2 counterexample: for the concrete canvas built from
`item_id = "a"`, `image_filename = "a.jpg"`, `base_url = "http://h"`,
`manifest_id = "m"`, `index = 1`, the Image-service id does NOT carry the
`{base_url}/collections/{manifest_id}/` prefix (it is
`http://h/iiif/3/a.jpg`), so the four nested ids do not all share the
claimed prefix pattern. -/
theorem create_canvas_service_prefix_counterexample :
    (create_canvas "a" "a.jpg" "http://h" 10 10 1 "m").serviceId = "http://h/iiif/3/a.jpg" ∧
    strIsPrefixOf "http://h/collections/m/"
      (create_canvas "a" "a.jpg" "http://h" 10 10 1 "m").serviceId = false := by
  constructor
  · rfl
  · decide

/-- C2 (amended): in every canvas built by `create_canvas`, the Canvas id,
the AnnotationPage id and the Annotation id (and the annotation target)
share the `{base_url}/collections/{manifest_id}/` prefix, while the
Image-service id is `{base_url}/iiif/3/{image_filename}` instead. -/
theorem create_canvas_id_prefixes (item_id image_filename base_url : String)
    (width height canvas_index : Nat) (manifest_id : String) :
    strIsPrefixOf (base_url ++ "/collections/" ++ manifest_id ++ "/")
      (create_canvas item_id image_filename base_url width height canvas_index manifest_id).id
        = true ∧
    strIsPrefixOf (base_url ++ "/collections/" ++ manifest_id ++ "/")
      (create_canvas item_id image_filename base_url width height canvas_index manifest_id).pageId
        = true ∧
    strIsPrefixOf (base_url ++ "/collections/" ++ manifest_id ++ "/")
      (create_canvas item_id image_filename base_url width height canvas_index
        manifest_id).annotationId = true ∧
    strIsPrefixOf (base_url ++ "/collections/" ++ manifest_id ++ "/")
      (create_canvas item_id image_filename base_url width height canvas_index
        manifest_id).target = true ∧
    (create_canvas item_id image_filename base_url width height canvas_index
      manifest_id).serviceId = base_url ++ "/iiif/3/" ++ image_filename :=
  ⟨strIsPrefixOf_append _ _, strIsPrefixOf_append _ _, strIsPrefixOf_append _ _,
    strIsPrefixOf_append _ _, rfl⟩

/-- C6: when the image's dimensions cannot be read (`dims image_path = none`
models any read/decode failure), `get_image_dimensions` returns the fixed
fallback `(1000, 1000)`; being a total function it never propagates an
error to its caller. -/
theorem get_image_dimensions_fallback (dims : String → Option (Nat × Nat))
    (image_path : String) (h : dims image_path = none) :
    get_image_dimensions dims image_path = (1000, 1000) := by
  simp [get_image_dimensions, h]

/-- Witness for C6 at a concrete always-failing read. -/
theorem get_image_dimensions_fallback_witness :
    get_image_dimensions (fun _ => none) "imgs/bad.jpg" = (1000, 1000) :=
  get_image_dimensions_fallback (fun _ => none) "imgs/bad.jpg" rfl

/-- C7: `find_image_file` probes the fixed ordered extension list
(lowercase then uppercase of jpg, jpeg, png, tif, tiff) and returns the
first existing `{images_dir}/{item_id}{ext}`; hence two runs over
extensionally equal directory contents resolve to the same path. -/
theorem find_image_file_first_match_deterministic (ex1 ex2 : String → Bool)
    (item_id images_dir : String) (h : ∀ s, ex1 s = ex2 s) :
    find_image_file item_id images_dir ex1 =
      (extensions.find? (fun e => ex1 (images_dir ++ "/" ++ (item_id ++ e)))).map
        (fun e => images_dir ++ "/" ++ (item_id ++ e)) ∧
    find_image_file item_id images_dir ex1 = find_image_file item_id images_dir ex2 := by
  have hfun : ex1 = ex2 := funext h
  subst hfun
  exact ⟨probe_extensions_eq_find ex1 images_dir item_id extensions, rfl⟩

/-- Witness for C7: a directory holding both `a.png` and `a.jpg` resolves
`a` to `a.jpg` (the earlier extension in the declared order), identically
for two extensionally equal directory states. -/
theorem find_image_file_first_match_deterministic_witness :
    find_image_file "a" "imgs" (fun s => s == "imgs/a.png" || s == "imgs/a.jpg") =
      (extensions.find? (fun e =>
        (fun s => s == "imgs/a.png" || s == "imgs/a.jpg") ("imgs" ++ "/" ++ ("a" ++ e)))).map
        (fun e => "imgs" ++ "/" ++ ("a" ++ e)) ∧
    find_image_file "a" "imgs" (fun s => s == "imgs/a.png" || s == "imgs/a.jpg") =
      find_image_file "a" "imgs" (fun s => s == "imgs/a.jpg" || s == "imgs/a.png") := by
  have h := find_image_file_first_match_deterministic
    (fun s => s == "imgs/a.png" || s == "imgs/a.jpg")
    (fun s => s == "imgs/a.jpg" || s == "imgs/a.png")
    "a" "imgs" (fun s => by cases hd : s == "imgs/a.png" <;> cases hd2 : s == "imgs/a.jpg" <;>
      simp [hd, hd2])
  exact h

/-- C8: `sanitize_filename` is the pure character rewrite replacing `(`
and space with `_` and deleting `)`; in particular it maps
`"11H(JEROME)"` to `"11H_JEROME"`. -/
theorem sanitize_filename_spec :
    sanitize_filename "11H(JEROME)" = "11H_JEROME" ∧
    ∀ name : String, sanitize_filename name = ⟨name.data.filterMap sanitize_char⟩ := by
  constructor
  · decide
  · intro name
    show String.mk _ = String.mk _
    rw [sanitize_chars_eq_filterMap]

theorem add_canvases_spec (ex : String → Bool) (dims : String → Option (Nat × Nat))
    (images_dir base_url manifest_id : String) (ids : List String) (n : Nat) :
    (add_canvases ex dims images_dir base_url manifest_id ids n).1.map Canvas.id =
      (List.range' n (add_canvases ex dims images_dir base_url manifest_id ids n).1.length).map
        (fun i => base_url ++ "/collections/" ++ manifest_id ++ "/" ++
          ("canvas/" ++ toString i)) ∧
    (add_canvases ex dims images_dir base_url manifest_id ids n).2 +
      (add_canvases ex dims images_dir base_url manifest_id ids n).1.length = ids.length ∧
    (add_canvases ex dims images_dir base_url manifest_id ids n).2 =
      (ids.filter (fun i => (find_image_file i images_dir ex).isNone)).length := by
  induction ids generalizing n with
  | nil => simp [add_canvases]
  | cons id rest ih =>
    cases hf : find_image_file id images_dir ex with
    | none =>
      obtain ⟨ih1, ih2, ih3⟩ := ih n
      simp only [add_canvases, hf, List.length_cons, List.filter_cons]
      refine ⟨ih1, by omega, ?_⟩
      simp [hf, ih3]
    | some f =>
      obtain ⟨ih1, ih2, ih3⟩ := ih (n + 1)
      simp only [add_canvases, hf, List.map_cons, List.length_cons, List.filter_cons]
      refine ⟨?_, by omega, ?_⟩
      · rw [show ∀ k, List.range' n (k + 1) = n :: List.range' (n + 1) k from fun _ => rfl,
          List.map_cons, ih1]
        rfl
      · simp [hf, ih3]

theorem add_canvases_all_skipped (ex : String → Bool) (dims : String → Option (Nat × Nat))
    (images_dir base_url manifest_id : String) (ids : List String) (n : Nat)
    (h : ∀ i ∈ ids, find_image_file i images_dir ex = none) :
    add_canvases ex dims images_dir base_url manifest_id ids n = ([], ids.length) := by
  induction ids generalizing n with
  | nil => rfl
  | cons id rest ih =>
    have hid : find_image_file id images_dir ex = none := h id (by simp)
    simp [add_canvases, hid, ih n (fun i hi => h i (by simp [hi]))]

theorem fs_read_write (fs : FS) (p : String) (m : Manifest) :
    fs_read (fs_write fs p m) p = some m := by
  simp [fs_read, fs_write, List.lookup]

/-- C3: in every manifest built by `create_multi_image_manifest`, an
unresolvable item contributes no canvas and consumes no index while
raising the skip count, so the indices embedded in the canvas ids of
`items` are exactly the contiguous range `1, ..., requested − skipped`,
and the skip count is exactly the number of unresolvable requested
items. -/
theorem create_multi_image_manifest_contiguous (ex : String → Bool)
    (dims : String → Option (Nat × Nat)) (manifest_id label description : String)
    (image_ids : List String) (images_dir base_url output_path : String) (fs : FS) :
    (create_multi_image_manifest ex dims manifest_id label description image_ids
        images_dir base_url output_path fs).1.items.map Canvas.id =
      (List.range' 1 (image_ids.length -
        (create_multi_image_manifest ex dims manifest_id label description image_ids
          images_dir base_url output_path fs).2.1)).map
        (fun i => base_url ++ "/collections/" ++ manifest_id ++ "/" ++
          ("canvas/" ++ toString i)) ∧
    (create_multi_image_manifest ex dims manifest_id label description image_ids
        images_dir base_url output_path fs).2.1 =
      (image_ids.filter (fun i => (find_image_file i images_dir ex).isNone)).length := by
  obtain ⟨h1, h2, h3⟩ := add_canvases_spec ex dims images_dir base_url manifest_id image_ids 1
  constructor
  · have hlen : image_ids.length -
        (add_canvases ex dims images_dir base_url manifest_id image_ids 1).2 =
        (add_canvases ex dims images_dir base_url manifest_id image_ids 1).1.length := by
      omega
    simpa [create_multi_image_manifest, hlen] using h1
  · simpa [create_multi_image_manifest] using h3

/-- C10: `create_multi_image_manifest` over a non-empty list of item ids
none of which resolves still writes the complete manifest document with an
empty `items` array to the output path, with skip count equal to the
number of requested items. -/
theorem create_multi_image_manifest_all_skipped_writes (ex : String → Bool)
    (dims : String → Option (Nat × Nat)) (manifest_id label description : String)
    (image_ids : List String) (images_dir base_url output_path : String) (fs : FS)
    (_hne : image_ids ≠ [])
    (h : ∀ i ∈ image_ids, find_image_file i images_dir ex = none) :
    (create_multi_image_manifest ex dims manifest_id label description image_ids
        images_dir base_url output_path fs).1 =
      { context := "http://iiif.io/api/presentation/3/context.json"
        id := base_url ++ "/collections/" ++ manifest_id ++ ".json"
        type := "Manifest"
        label := label
        summary := description
        items := [] } ∧
    (create_multi_image_manifest ex dims manifest_id label description image_ids
        images_dir base_url output_path fs).2.1 = image_ids.length ∧
    fs_read (create_multi_image_manifest ex dims manifest_id label description image_ids
        images_dir base_url output_path fs).2.2 output_path =
      some (create_multi_image_manifest ex dims manifest_id label description image_ids
        images_dir base_url output_path fs).1 := by
  have hall := add_canvases_all_skipped ex dims images_dir base_url manifest_id image_ids 1 h
  refine ⟨?_, ?_, ?_⟩ <;> simp [create_multi_image_manifest, hall, fs_read_write]

/-- Witness for C10 on the concrete two-item list `["a", "b"]` in an
empty directory. -/
theorem create_multi_image_manifest_all_skipped_writes_witness :
    (create_multi_image_manifest (fun _ => false) (fun _ => none) "m" "L" "D" ["a", "b"]
        "imgs" "http://h" "out/m.json" []).1 =
      { context := "http://iiif.io/api/presentation/3/context.json"
        id := "http://h" ++ "/collections/" ++ "m" ++ ".json"
        type := "Manifest"
        label := "L"
        summary := "D"
        items := [] } ∧
    (create_multi_image_manifest (fun _ => false) (fun _ => none) "m" "L" "D" ["a", "b"]
        "imgs" "http://h" "out/m.json" []).2.1 = (["a", "b"] : List String).length ∧
    fs_read (create_multi_image_manifest (fun _ => false) (fun _ => none) "m" "L" "D"
        ["a", "b"] "imgs" "http://h" "out/m.json" []).2.2 "out/m.json" =
      some (create_multi_image_manifest (fun _ => false) (fun _ => none) "m" "L" "D"
        ["a", "b"] "imgs" "http://h" "out/m.json" []).1 :=
  create_multi_image_manifest_all_skipped_writes (fun _ => false) (fun _ => none) "m" "L" "D"
    ["a", "b"] "imgs" "http://h" "out/m.json" [] (by decide) (fun _ _ => rfl)

theorem load_csv_row_all_items (r : Row) (d : CsvData) :
    (load_csv_row r d).all_items = d.all_items ++ [r.item] := by
  simp only [load_csv_row]
  split_ifs <;> rfl

theorem load_csv_row_set_train (r : Row) (d : CsvData) :
    (load_csv_row r d).set_train =
      d.set_train ++ (if r.set = some "train" then [r.item] else []) := by
  simp only [load_csv_row]
  split_ifs <;> simp_all

theorem load_csv_row_set_test (r : Row) (d : CsvData) :
    (load_csv_row r d).set_test =
      d.set_test ++ (if r.set = some "test" then [r.item] else []) := by
  simp only [load_csv_row]
  split_ifs <;> simp_all

theorem load_csv_row_set_val (r : Row) (d : CsvData) :
    (load_csv_row r d).set_val =
      d.set_val ++ (if r.set = some "val" then [r.item] else []) := by
  simp only [load_csv_row]
  split_ifs <;> simp_all

theorem load_foldl_all_items (rows : List Row) (d : CsvData) :
    (rows.foldl (fun d r => load_csv_row r d) d).all_items =
      d.all_items ++ rows.map Row.item := by
  induction rows generalizing d with
  | nil => simp
  | cons r rest ih => simp [List.foldl_cons, ih, load_csv_row_all_items]

theorem load_foldl_set_train (rows : List Row) (d : CsvData) :
    (rows.foldl (fun d r => load_csv_row r d) d).set_train =
      d.set_train ++ (rows.filter (fun r => r.set == some "train")).map Row.item := by
  induction rows generalizing d with
  | nil => simp
  | cons r rest ih =>
    simp only [List.foldl_cons, ih, load_csv_row_set_train, List.filter_cons]
    by_cases hset : r.set = some "train" <;> simp [hset]

theorem load_foldl_set_test (rows : List Row) (d : CsvData) :
    (rows.foldl (fun d r => load_csv_row r d) d).set_test =
      d.set_test ++ (rows.filter (fun r => r.set == some "test")).map Row.item := by
  induction rows generalizing d with
  | nil => simp
  | cons r rest ih =>
    simp only [List.foldl_cons, ih, load_csv_row_set_test, List.filter_cons]
    by_cases hset : r.set = some "test" <;> simp [hset]

theorem load_foldl_set_val (rows : List Row) (d : CsvData) :
    (rows.foldl (fun d r => load_csv_row r d) d).set_val =
      d.set_val ++ (rows.filter (fun r => r.set == some "val")).map Row.item := by
  induction rows generalizing d with
  | nil => simp
  | cons r rest ih =>
    simp only [List.foldl_cons, ih, load_csv_row_set_val, List.filter_cons]
    by_cases hset : r.set = some "val" <;> simp [hset]

/-- C4: the loader appends every row's item to the full ordered list
regardless of the split value (so its length equals the row count), and a
row enters a split bucket exactly when its optional `set` value equals
that split's name — a missing or unknown `set` value leaves the item out
of every split bucket, without error (the loader is a total function). -/
theorem load_csv_data_full_list_and_buckets (rows : List Row) :
    (load_csv_data rows).all_items = rows.map Row.item ∧
    (load_csv_data rows).all_items.length = rows.length ∧
    (load_csv_data rows).set_train =
      (rows.filter (fun r => r.set == some "train")).map Row.item ∧
    (load_csv_data rows).set_test =
      (rows.filter (fun r => r.set == some "test")).map Row.item ∧
    (load_csv_data rows).set_val =
      (rows.filter (fun r => r.set == some "val")).map Row.item := by
  have h1 : (load_csv_data rows).all_items = rows.map Row.item := by
    simpa [load_csv_data] using load_foldl_all_items rows _
  refine ⟨h1, by simp [h1], ?_, ?_, ?_⟩
  · simpa [load_csv_data] using load_foldl_set_train rows _
  · simpa [load_csv_data] using load_foldl_set_test rows _
  · simpa [load_csv_data] using load_foldl_set_val rows _

/-- C5 counterexample: a catalog whose two rows share the item id `"a"`
but carry different split values puts `"a"` into both the `train` and the
`test` bucket, so over arbitrary catalogs an item id is NOT always in at
most one split bucket. -/
theorem split_bucket_duplicate_counterexample :
    "a" ∈ (load_csv_data [⟨"a", some "train", []⟩, ⟨"a", some "test", []⟩]).set_train ∧
    "a" ∈ (load_csv_data [⟨"a", some "train", []⟩, ⟨"a", some "test", []⟩]).set_test := by
  decide

theorem mem_split_bucket (rows : List Row) (name x : String) :
    x ∈ (rows.filter (fun r => r.set == some name)).map Row.item ↔
      ∃ r, (r ∈ rows ∧ r.set = some name) ∧ r.item = x := by
  simp [List.mem_map, List.mem_filter]

/-- C5 (amended): for catalogs whose rows carry pairwise distinct item
ids, every item id is in at most one split bucket, and bucket membership
is decided solely by the row's `set` value equalling the bucket's name. -/
theorem load_csv_data_split_buckets_disjoint (rows : List Row) (x : String)
    (h : (rows.map Row.item).Nodup) :
    (x ∈ (load_csv_data rows).set_train ↔
      ∃ r, (r ∈ rows ∧ r.set = some "train") ∧ r.item = x) ∧
    (x ∈ (load_csv_data rows).set_train → x ∉ (load_csv_data rows).set_test) ∧
    (x ∈ (load_csv_data rows).set_train → x ∉ (load_csv_data rows).set_val) ∧
    (x ∈ (load_csv_data rows).set_test → x ∉ (load_csv_data rows).set_val) := by
  have etr : (load_csv_data rows).set_train =
      (rows.filter (fun r => r.set == some "train")).map Row.item := by
    simpa [load_csv_data] using load_foldl_set_train rows _
  have ete : (load_csv_data rows).set_test =
      (rows.filter (fun r => r.set == some "test")).map Row.item := by
    simpa [load_csv_data] using load_foldl_set_test rows _
  have eva : (load_csv_data rows).set_val =
      (rows.filter (fun r => r.set == some "val")).map Row.item := by
    simpa [load_csv_data] using load_foldl_set_val rows _
  have key : ∀ a b : String, a ≠ b →
      x ∈ (rows.filter (fun r => r.set == some a)).map Row.item →
      x ∉ (rows.filter (fun r => r.set == some b)).map Row.item := by
    intro a b hab hxa hxb
    rw [mem_split_bucket] at hxa hxb
    obtain ⟨r1, ⟨hr1, hs1⟩, hi1⟩ := hxa
    obtain ⟨r2, ⟨hr2, hs2⟩, hi2⟩ := hxb
    have heq : r1 = r2 := List.inj_on_of_nodup_map h hr1 hr2 (by rw [hi1, hi2])
    subst heq
    rw [hs1] at hs2
    exact hab (Option.some.inj hs2)
  refine ⟨?_, ?_, ?_, ?_⟩
  · rw [etr, mem_split_bucket]
  · rw [etr, ete]; exact key "train" "test" (by decide)
  · rw [etr, eva]; exact key "train" "val" (by decide)
  · rw [ete, eva]; exact key "test" "val" (by decide)

/-- Witness for C5's amended theorem on a concrete two-row catalog with
distinct item ids. -/
theorem load_csv_data_split_buckets_disjoint_witness :
    ("a" ∈ (load_csv_data [⟨"a", some "train", []⟩, ⟨"b", some "test", []⟩]).set_train ↔
      ∃ r, (r ∈ [(⟨"a", some "train", []⟩ : Row), ⟨"b", some "test", []⟩] ∧
        r.set = some "train") ∧ r.item = "a") ∧
    ("a" ∈ (load_csv_data [⟨"a", some "train", []⟩, ⟨"b", some "test", []⟩]).set_train →
      "a" ∉ (load_csv_data [⟨"a", some "train", []⟩, ⟨"b", some "test", []⟩]).set_test) ∧
    ("a" ∈ (load_csv_data [⟨"a", some "train", []⟩, ⟨"b", some "test", []⟩]).set_train →
      "a" ∉ (load_csv_data [⟨"a", some "train", []⟩, ⟨"b", some "test", []⟩]).set_val) ∧
    ("a" ∈ (load_csv_data [⟨"a", some "train", []⟩, ⟨"b", some "test", []⟩]).set_test →
      "a" ∉ (load_csv_data [⟨"a", some "train", []⟩, ⟨"b", some "test", []⟩]).set_val) :=
  load_csv_data_split_buckets_disjoint [⟨"a", some "train", []⟩, ⟨"b", some "test", []⟩] "a"
    (by decide)

/-- C1 counterexample: `--force` unset, splits requested, the sample's
own target file `out/sample.json` already present, and a one-row catalog
whose image resolves.  The claim predicts the driver skips only the
sample and still builds `train.json`; the driver instead returns at the
directory-level check, leaving the directory unchanged with no
`train.json` written. -/
theorem generate_manifests_per_file_counterexample :
    generate_manifests (fun s => s == "imgs/a.jpg") (fun _ => some (10, 10))
      ⟨"http://h", "imgs", "out", 1, true, false, false, false⟩ [⟨"a", some "train", []⟩]
      true [("out/sample.json", ⟨"", "", "", "", "", []⟩)] =
      [("out/sample.json", ⟨"", "", "", "", "", []⟩)] ∧
    fs_read (generate_manifests (fun s => s == "imgs/a.jpg") (fun _ => some (10, 10))
      ⟨"http://h", "imgs", "out", 1, true, false, false, false⟩ [⟨"a", some "train", []⟩]
      true [("out/sample.json", ⟨"", "", "", "", "", []⟩)]) "out/train.json" = none := by
  decide

/-- C1 (amended): the existence check is a single all-or-nothing check on
the output directory — when the directory exists, holds any `.json` file
and `--force` is unset, the driver skips ALL generation and leaves every
existing file unchanged.  Only the sample manifest has an additional
per-file check, which skips just the sample without `--force`; with
`--force` set, the sample manifest is regenerated. -/
theorem generate_manifests_skip_semantics (ex : String → Bool)
    (dims : String → Option (Nat × Nat)) (args : GenArgs) (rows : List Row)
    (outDirExists : Bool) (fs0 fsMid : FS) :
    (args.force = false → outDirExists = true →
      fs0.any (fun kv => matches_json_glob kv.1) = true →
      generate_manifests ex dims args rows outDirExists fs0 = fs0) ∧
    (args.force = false →
      (fs_read fsMid (args.output_dir ++ "/sample.json")).isSome = true →
      gen_sample ex dims args (load_csv_data rows) fsMid = fsMid) ∧
    (args.force = true → 0 < args.sample_size →
      fs_read (generate_manifests ex dims args rows outDirExists fs0)
          (args.output_dir ++ "/sample.json") =
        some (create_multi_image_manifest ex dims "sample"
          ("Sample Collection (" ++ toString args.sample_size ++ " images)")
          ("Sample collection of " ++ toString args.sample_size ++
            " images from the ArtDL dataset")
          ((load_csv_data rows).all_items.take args.sample_size)
          args.images_dir args.base_url (args.output_dir ++ "/sample.json") []).1) := by
  refine ⟨?_, ?_, ?_⟩
  · intro h1 h2 h3
    simp [generate_manifests, h1, h2, h3]
  · intro h1 h2
    simp [gen_sample, h1, h2]
  · intro h1 h2
    simp [generate_manifests, gen_sample, h1, h2, create_multi_image_manifest, fs_read_write]

/-- Witness for C1's amended theorem, applying it in a state with an
existing `out/sample.json`, once with `--force` unset and once with
`--force` set. -/
theorem generate_manifests_skip_semantics_witness :
    generate_manifests (fun _ => false) (fun _ => none)
      ⟨"http://h", "imgs", "out", 1, true, false, false, false⟩ [] true
      [("out/sample.json", ⟨"", "", "", "", "", []⟩)] =
      [("out/sample.json", ⟨"", "", "", "", "", []⟩)] ∧
    gen_sample (fun _ => false) (fun _ => none)
      ⟨"http://h", "imgs", "out", 1, true, false, false, false⟩ (load_csv_data [])
      [("out/sample.json", ⟨"", "", "", "", "", []⟩)] =
      [("out/sample.json", ⟨"", "", "", "", "", []⟩)] ∧
    fs_read (generate_manifests (fun _ => false) (fun _ => none)
        ⟨"http://h", "imgs", "out", 1, true, false, false, true⟩ [] true
        [("out/sample.json", ⟨"", "", "", "", "", []⟩)]) ("out" ++ "/sample.json") =
      some (create_multi_image_manifest (fun _ => false) (fun _ => none) "sample"
        ("Sample Collection (" ++ toString (1 : Nat) ++ " images)")
        ("Sample collection of " ++ toString (1 : Nat) ++ " images from the ArtDL dataset")
        ((load_csv_data []).all_items.take 1) "imgs" "http://h"
        ("out" ++ "/sample.json") []).1 :=
  ⟨(generate_manifests_skip_semantics (fun _ => false) (fun _ => none)
      ⟨"http://h", "imgs", "out", 1, true, false, false, false⟩ [] true
      [("out/sample.json", ⟨"", "", "", "", "", []⟩)]
      [("out/sample.json", ⟨"", "", "", "", "", []⟩)]).1 rfl rfl (by decide),
   (generate_manifests_skip_semantics (fun _ => false) (fun _ => none)
      ⟨"http://h", "imgs", "out", 1, true, false, false, false⟩ [] true
      [("out/sample.json", ⟨"", "", "", "", "", []⟩)]
      [("out/sample.json", ⟨"", "", "", "", "", []⟩)]).2.1 rfl (by decide),
   (generate_manifests_skip_semantics (fun _ => false) (fun _ => none)
      ⟨"http://h", "imgs", "out", 1, true, false, false, true⟩ [] true
      [("out/sample.json", ⟨"", "", "", "", "", []⟩)]
      [("out/sample.json", ⟨"", "", "", "", "", []⟩)]).2.2 rfl (by decide)⟩

/-- C9: in sample-only mode with sample size N, past the directory and
sample-existence checks the driver builds exactly one manifest, named
`sample`, from the first N entries of the full ordered item list in
catalog order (no shuffling); concretely, sample size 3 against the
catalog `[a, b, c, d]` with all images resolving yields a sample manifest
whose items are labelled `a, b, c` in order. -/
theorem generate_manifests_sample_mode (ex : String → Bool)
    (dims : String → Option (Nat × Nat)) (args : GenArgs) (rows : List Row)
    (outDirExists : Bool) (fs0 : FS)
    (hsplits : args.generate_splits = false) (hsaints : args.generate_saints = false)
    (hall : args.generate_all = false) (hsz : 0 < args.sample_size)
    (hguard : (outDirExists && !args.force &&
      fs0.any (fun kv => matches_json_glob kv.1)) = false)
    (hfresh : ((fs_read fs0 (args.output_dir ++ "/sample.json")).isSome && !args.force)
      = false) :
    generate_manifests ex dims args rows outDirExists fs0 =
      fs_write fs0 (args.output_dir ++ "/sample.json")
        (create_multi_image_manifest ex dims "sample"
          ("Sample Collection (" ++ toString args.sample_size ++ " images)")
          ("Sample collection of " ++ toString args.sample_size ++
            " images from the ArtDL dataset")
          ((load_csv_data rows).all_items.take args.sample_size)
          args.images_dir args.base_url (args.output_dir ++ "/sample.json") fs0).1 ∧
    (load_csv_data [⟨"a", none, []⟩, ⟨"b", none, []⟩, ⟨"c", none, []⟩,
      ⟨"d", none, []⟩]).all_items.take 3 = ["a", "b", "c"] ∧
    (fs_read (generate_manifests
        (fun s => s == "imgs/a.jpg" || s == "imgs/b.jpg" || s == "imgs/c.jpg" ||
          s == "imgs/d.jpg")
        (fun _ => some (10, 10)) ⟨"http://h", "imgs", "out", 3, false, false, false, false⟩
        [⟨"a", none, []⟩, ⟨"b", none, []⟩, ⟨"c", none, []⟩, ⟨"d", none, []⟩] false [])
        "out/sample.json").map (fun m => m.items.map Canvas.label) =
      some ["a", "b", "c"] := by
  refine ⟨?_, by decide, by decide⟩
  simp [generate_manifests, hsplits, hsaints, hall, hguard, hsz, gen_sample, hfresh,
    create_multi_image_manifest, fs_write]

/-- Witness for C9 on the concrete catalog `[a, b, c, d]`, sample size 3,
fresh output directory. -/
theorem generate_manifests_sample_mode_witness :
    generate_manifests
        (fun s => s == "imgs/a.jpg" || s == "imgs/b.jpg" || s == "imgs/c.jpg" ||
          s == "imgs/d.jpg")
        (fun _ => some (10, 10)) ⟨"http://h", "imgs", "out", 3, false, false, false, false⟩
        [⟨"a", none, []⟩, ⟨"b", none, []⟩, ⟨"c", none, []⟩, ⟨"d", none, []⟩] false [] =
      fs_write []
        ((GenArgs.mk "http://h" "imgs" "out" 3 false false false false).output_dir ++
          "/sample.json")
        (create_multi_image_manifest
          (fun s => s == "imgs/a.jpg" || s == "imgs/b.jpg" || s == "imgs/c.jpg" ||
            s == "imgs/d.jpg")
          (fun _ => some (10, 10)) "sample"
          ("Sample Collection (" ++ toString (3 : Nat) ++ " images)")
          ("Sample collection of " ++ toString (3 : Nat) ++
            " images from the ArtDL dataset")
          ((load_csv_data [⟨"a", none, []⟩, ⟨"b", none, []⟩, ⟨"c", none, []⟩,
            ⟨"d", none, []⟩]).all_items.take 3)
          "imgs" "http://h" ("out" ++ "/sample.json") []).1 ∧
    (load_csv_data [⟨"a", none, []⟩, ⟨"b", none, []⟩, ⟨"c", none, []⟩,
      ⟨"d", none, []⟩]).all_items.take 3 = ["a", "b", "c"] ∧
    (fs_read (generate_manifests
        (fun s => s == "imgs/a.jpg" || s == "imgs/b.jpg" || s == "imgs/c.jpg" ||
          s == "imgs/d.jpg")
        (fun _ => some (10, 10)) ⟨"http://h", "imgs", "out", 3, false, false, false, false⟩
        [⟨"a", none, []⟩, ⟨"b", none, []⟩, ⟨"c", none, []⟩, ⟨"d", none, []⟩] false [])
        "out/sample.json").map (fun m => m.items.map Canvas.label) =
      some ["a", "b", "c"] := by
  have h := generate_manifests_sample_mode
    (fun s => s == "imgs/a.jpg" || s == "imgs/b.jpg" || s == "imgs/c.jpg" ||
      s == "imgs/d.jpg")
    (fun _ => some (10, 10)) ⟨"http://h", "imgs", "out", 3, false, false, false, false⟩
    [⟨"a", none, []⟩, ⟨"b", none, []⟩, ⟨"c", none, []⟩, ⟨"d", none, []⟩] false []
    rfl rfl rfl (by decide) rfl rfl
  exact h

end IIIFy
